import Mathlib

/-!
Verification of the coroutine-based error-propagation core of
`Znurre/perfect-error-handling` (src/main.cpp): the `result<T>` awaitable
carrier and the `promise<T>` frame controller built over
`std::shared_ptr<std::expected<T, uint64_t>>`.

Shallow embedding notes:
* The shared slot `std::expected<T, uint64_t>` is modelled by `Expected T`,
  a two-constructor discriminated union.  Error codes are `uint64_t` values
  that are only ever stored and copied (never computed with), so they are
  embedded as `Nat`.
* The accessors whose C++ preconditions can be violated
  (`expected::operator*` inside `await_resume`, `result::error` on a
  value-holding slot, `result::operator*` on an error-holding slot) are
  embedded as `Option`-valued reads: `none` marks the read that the C++
  source leaves undefined (or throwing, for `expected::value()`).
* A coroutine frame is modelled by `Frame T`: the contents of its shared
  slot, a ghost counter of `return_value` calls, the frame-local resources
  currently alive (in construction order), and the log of released
  resources. `handle.destroy()` and the implicit teardown after
  `final_suspend` (a `suspend_never`) both run the C++ destructors of the
  frame's locals in reverse construction order; `destroyFrame` embeds that
  language-level guarantee.
* A frame body is a list of `BodyStep`s executed by `runBody`, which stops
  at `co_return` (the two finalize steps), at an error-propagating
  `co_await`, and after an escaped exception, exactly as the coroutine
  machinery dictates.
-/

namespace PerfectErrorHandling

/-- `std::expected<T, uint64_t>`: holds exactly one of a value or an error
code. -/
inductive Expected (T : Type) where
  | value (v : T)
  | error (e : Nat)
  deriving DecidableEq

namespace Expected

/-- `expected::has_value()`. -/
def has_value {T : Type} : Expected T → Bool
  | .value _ => true
  | .error _ => false

/-- `expected::operator*` / `expected::value()`: the contained value;
`none` marks the error-state read the C++ source leaves undefined
(respectively throwing). -/
def valueOpt {T : Type} : Expected T → Option T
  | .value v => some v
  | .error _ => none

/-- `expected::error()`: the contained error code; `none` marks the
value-state read that C++ leaves undefined. -/
def errorOpt {T : Type} : Expected T → Option Nat
  | .value _ => none
  | .error e => some e

end Expected

/-- The state of one coroutine frame: the contents of its shared slot
(`promise<T>::value_`, reachable through every `result<T>` copy bound to
it), a ghost count of `return_value` calls on the slot, the frame-local
resources still alive in construction order, the log of released
resources in release order, and whether the frame itself is still alive.
The slot contents outlive the frame (`shared_ptr`), which is why `slot`
remains readable after `destroyFrame`. -/
structure Frame (T : Type) where
  slot : Expected T
  slotWrites : Nat
  resources : List Nat
  destroyed : List Nat
  alive : Bool
  deriving DecidableEq

/-- `handle.destroy()` (and the teardown after the `suspend_never`
`final_suspend`): C++ destroys the frame's locals in reverse construction
order and frees the frame.  The shared slot survives in the carriers. -/
def destroyFrame {T : Type} (f : Frame T) : Frame T :=
  { f with alive := false, resources := [], destroyed := f.destroyed ++ f.resources.reverse }

/-- Constructing a frame-local resource in the body: appended to the live
list in construction order. -/
def constructLocal {T : Type} (rid : Nat) (f : Frame T) : Frame T :=
  { f with resources := f.resources ++ [rid] }

namespace promise

/-- `promise<T>::promise()`: `make_shared<expected<T, uint64_t>>()`
value-initializes the slot, so a fresh slot holds a default-constructed
`T` (and has seen no `return_value` call, owns no resources). -/
def mk {T : Type} [Inhabited T] : Frame T :=
  { slot := .value default, slotWrites := 0, resources := [], destroyed := [], alive := true }

/-- `promise<T>::return_value(expected<T, uint64_t>&&)`: overwrites the
shared slot; the ghost counter records the write. -/
def return_value {T : Type} (v : Expected T) (f : Frame T) : Frame T :=
  { f with slot := v, slotWrites := f.slotWrites + 1 }

/-- `promise<T>::unhandled_exception()`: empty body — it does nothing to
the frame or the slot. -/
def unhandled_exception {T : Type} (f : Frame T) : Frame T :=
  f

/-- `promise<T>::get_return_object()`: the carrier handed to the caller
observes the frame's shared slot. -/
def get_return_object {T : Type} (f : Frame T) : Expected T :=
  f.slot

end promise

namespace result

/-- `result<T>::await_ready()`: always `false`. -/
def await_ready {T : Type} (_ : Expected T) : Bool :=
  false

/-- `result<T>::await_resume()`: `**value_`, the unguarded dereference of
the slot; `none` marks the error-state dereference C++ leaves undefined. -/
def await_resume {T : Type} (c : Expected T) : Option T :=
  c.valueOpt

/-- `result<T>::await_suspend(coroutine_handle<promise<U>>)`: if the
awaited slot holds an error, write that same code into the awaiting
frame's own slot via `return_value`, destroy the awaiting frame, and
return `true` (remain suspended); otherwise return `false` (resume). -/
def await_suspend {A U : Type} (c : Expected A) (handle : Frame U) : Bool × Frame U :=
  match c with
  | .error e => (true, destroyFrame (promise.return_value (.error e) handle))
  | .value _ => (false, handle)

/-- `result<T>::operator bool()`: `value_->has_value()`. -/
def toBool {T : Type} (c : Expected T) : Bool :=
  c.has_value

/-- `result<T>::operator*()`: `value_->value()`. -/
def deref {T : Type} (c : Expected T) : Option T :=
  c.valueOpt

/-- `result<T>::error()`: `value_->error()`. -/
def error {T : Type} (c : Expected T) : Option Nat :=
  c.errorOpt

end result

/-- Outcome of one `co_await` on a carrier, seen from the awaiting frame:
either the frame resumes with the extracted value, or it stays suspended
(it was destroyed and control returns to its caller). -/
inductive AwaitOutcome (A U : Type) where
  | resumed (v : Option A) (frame : Frame U)
  | suspended (frame : Frame U)
  deriving DecidableEq

/-- The fixed `co_await` protocol of the C++ coroutine machinery on a
`result<A>` awaited inside a `promise<U>` frame: `await_ready`, then
`await_suspend`, then — only on the resume path — `await_resume`. -/
def coAwait {A U : Type} (c : Expected A) (b : Frame U) : AwaitOutcome A U :=
  if result.await_ready c then
    .resumed (result.await_resume c) b
  else
    match result.await_suspend c b with
    | (true, b') => .suspended b'
    | (false, b') => .resumed (result.await_resume c) b'

/-- One statement of a coroutine frame body, as far as the protocol can
observe it: constructing a local resource, awaiting a nested carrier
(`co_await`), finalizing with a value or an error (`co_return`), or an
exception escaping the body. -/
inductive BodyStep (T : Type) where
  | construct (rid : Nat)
  | propagate (inner : Expected Nat)
  | retVal (v : T)
  | retErr (e : Nat)
  | throwFault
  deriving DecidableEq

/-- Terminal (or not yet terminal) state of a frame after running its
body. -/
inductive FrameStatus where
  | incomplete
  | completedWithValue
  | completedWithError
  | destroyedOnPropagatedError
  | faulted
  deriving DecidableEq

/-- Runs a frame body over its frame state.  `co_return` finalizes the
slot via `return_value` and then the `suspend_never` `final_suspend` lets
the frame be torn down; an error-propagating `co_await` stops the body
(the frame was already finalized and destroyed by `await_suspend`); an
escaped exception reaches the empty `unhandled_exception` and the frame
is then torn down with the slot untouched. -/
def runBody {T : Type} : List (BodyStep T) → Frame T → Frame T × FrameStatus
  | [], f => (f, .incomplete)
  | .construct rid :: rest, f => runBody rest (constructLocal rid f)
  | .propagate inner :: rest, f =>
      match coAwait inner f with
      | .suspended f' => (f', .destroyedOnPropagatedError)
      | .resumed _ f' => runBody rest f'
  | .retVal v :: _, f => (destroyFrame (promise.return_value (.value v) f), .completedWithValue)
  | .retErr e :: _, f => (destroyFrame (promise.return_value (.error e) f), .completedWithError)
  | .throwFault :: _, f => (destroyFrame (promise.unhandled_exception f), .faulted)

/-- A run of leading `construct` steps only accumulates the constructed
resources, in construction order, and touches nothing else. -/
theorem runBody_constructs {T : Type} (rids : List Nat) (rest : List (BodyStep T))
    (f : Frame T) :
    runBody (rids.map BodyStep.construct ++ rest) f
      = runBody rest { f with resources := f.resources ++ rids } := by
  induction rids generalizing f with
  | nil => simp
  | cons r rs ih =>
      simp only [List.map_cons, List.cons_append, runBody, constructLocal, List.append_eq]
      rw [ih]
      simp [List.append_assoc]

/-- C1: awaiting a carrier that holds error `E` finalizes the awaiting
frame's own slot with exactly `E` (no transformation, wrapping or
annotation: the slot is literally `.error E`), destroys the frame, and
leaves the awaiting body suspended — the result of the run does not
depend on `rest`, the statements positioned after the await point, so
none of them executes. -/
theorem c1_propagation_fidelity {U : Type} (e : Nat) (bU : Frame U) (b : Frame Nat)
    (rest : List (BodyStep Nat)) :
    coAwait (Expected.error e : Expected Nat) bU
      = .suspended (destroyFrame (promise.return_value (.error e) bU))
    ∧ runBody (BodyStep.propagate (.error e) :: rest) b
      = (destroyFrame (promise.return_value (.error e) b), .destroyedOnPropagatedError)
    ∧ result.error (runBody (BodyStep.propagate (.error e) :: rest) b).1.slot = some e
    ∧ result.toBool (runBody (BodyStep.propagate (.error e) :: rest) b).1.slot = false :=
  ⟨rfl, rfl, rfl, rfl⟩

/-- C2: when a frame that constructed resources `rids` before its await
point awaits an errored carrier, every one of those resources is released
(each exactly as many times as it was constructed), in reverse
construction order, as part of the very propagation step, with the frame
destroyed and nothing left alive in it. -/
theorem c2_deterministic_release (e : Nat) (rids : List Nat) :
    (runBody (rids.map BodyStep.construct ++ [BodyStep.propagate (.error e)])
        (promise.mk : Frame Nat)).1.destroyed = rids.reverse
    ∧ (∀ r, (runBody (rids.map BodyStep.construct ++ [BodyStep.propagate (.error e)])
        (promise.mk : Frame Nat)).1.destroyed.count r = rids.count r)
    ∧ (runBody (rids.map BodyStep.construct ++ [BodyStep.propagate (.error e)])
        (promise.mk : Frame Nat)).1.resources = []
    ∧ (runBody (rids.map BodyStep.construct ++ [BodyStep.propagate (.error e)])
        (promise.mk : Frame Nat)).1.alive = false
    ∧ (runBody (rids.map BodyStep.construct ++ [BodyStep.propagate (.error e)])
        (promise.mk : Frame Nat)).2 = .destroyedOnPropagatedError := by
  rw [runBody_constructs]
  refine ⟨by simp [runBody, coAwait, result.await_suspend, destroyFrame, promise.return_value,
    promise.mk, result.await_ready], fun r => ?_, rfl, rfl, rfl⟩
  simp [runBody, coAwait, result.await_suspend, destroyFrame, promise.return_value,
    promise.mk, result.await_ready]

/-- C3: awaiting a carrier that holds value `v` resumes the awaiting frame
immediately with exactly `v`; the frame comes back literally unchanged, so
there is no slot write and no destruction. -/
theorem c3_no_spurious_propagation {A U : Type} (v : A) (b : Frame U) :
    coAwait (Expected.value v) b = .resumed (some v) b :=
  rfl

/-- C4: a frame that finalizes with value `v` (co_return v) yields a
carrier that bool-tests true and dereferences to exactly `v`. -/
theorem c4_success_invariant {T : Type} (v : T) (f : Frame T) (rest : List (BodyStep T)) :
    result.toBool (runBody (BodyStep.retVal v :: rest) f).1.slot = true
    ∧ result.deref (runBody (BodyStep.retVal v :: rest) f).1.slot = some v
    ∧ (runBody (BodyStep.retVal v :: rest) f).2 = .completedWithValue :=
  ⟨rfl, rfl, rfl⟩

/-- C5: a frame that finalizes with error code `e` (co_return
unexpected(e)) yields a carrier that bool-tests false and whose error
accessor returns exactly `e`. -/
theorem c5_leaf_error_invariant {T : Type} (e : Nat) (f : Frame T)
    (rest : List (BodyStep T)) :
    result.toBool (runBody (BodyStep.retErr e :: rest) f).1.slot = false
    ∧ result.error (runBody (BodyStep.retErr e :: rest) f).1.slot = some e
    ∧ (runBody (BodyStep.retErr e :: rest) f).2 = .completedWithError :=
  ⟨rfl, rfl, rfl⟩

/-- Helper for the write-once property: from any starting frame, a body
run that ends in one of the three terminal states of the frame state
machine performed exactly one additional `return_value` call. -/
theorem runBody_write_once {T : Type} (body : List (BodyStep T)) (f : Frame T)
    (h : (runBody body f).2 = .completedWithValue
       ∨ (runBody body f).2 = .completedWithError
       ∨ (runBody body f).2 = .destroyedOnPropagatedError) :
    (runBody body f).1.slotWrites = f.slotWrites + 1 := by
  induction body generalizing f with
  | nil => simp [runBody] at h
  | cons step rest ih =>
      cases step with
      | construct rid => exact ih (constructLocal rid f) h
      | propagate inner =>
          cases inner with
          | value v => exact ih f h
          | error e => rfl
      | retVal v => rfl
      | retErr e => rfl
      | throwFault => simp [runBody] at h

/-- C6: over the whole lifetime of a frame started by `promise()`, if the
frame reaches any of the three terminal states (CompletedWithValue,
CompletedWithError, DestroyedOnPropagatedError) then its slot received
exactly one `return_value` write; the run stops at that very step, so the
slot's contents never change afterwards. -/
theorem c6_write_once (body : List (BodyStep Nat))
    (h : (runBody body (promise.mk : Frame Nat)).2 = .completedWithValue
       ∨ (runBody body (promise.mk : Frame Nat)).2 = .completedWithError
       ∨ (runBody body (promise.mk : Frame Nat)).2 = .destroyedOnPropagatedError) :
    (runBody body (promise.mk : Frame Nat)).1.slotWrites = 1 :=
  runBody_write_once body promise.mk h

/-- Witness for C6 at the one-step body `co_return 0`. -/
theorem c6_write_once_witness :
    (runBody [BodyStep.retVal 0] (promise.mk : Frame Nat)).2 = .completedWithValue
    ∧ (runBody [BodyStep.retVal 0] (promise.mk : Frame Nat)).1.slotWrites = 1 :=
  ⟨rfl, c6_write_once [BodyStep.retVal 0] (Or.inl rfl)⟩

/-- Counterexample to C7 as stated: a freshly allocated slot does not
hold "neither a value nor an error" — `make_shared<expected<T,
uint64_t>>()` value-initializes it, so it already holds the
default-constructed value (here `0 : Nat`) and bool-tests true. There is
no third `Unset` state. -/
theorem c7_counterexample :
    (promise.mk : Frame Nat).slot = Expected.value 0
    ∧ Expected.has_value (promise.mk : Frame Nat).slot = true :=
  ⟨rfl, rfl⟩

/-- Helper for amended C7: a body run that has not yet finalized (status
still `incomplete`) leaves the slot contents untouched. -/
theorem runBody_incomplete_slot {T : Type} (body : List (BodyStep T)) (f : Frame T)
    (h : (runBody body f).2 = .incomplete) :
    (runBody body f).1.slot = f.slot := by
  induction body generalizing f with
  | nil => rfl
  | cons step rest ih =>
      cases step with
      | construct rid => exact ih (constructLocal rid f) h
      | propagate inner =>
          cases inner with
          | value v => exact ih f h
          | error e => simp [runBody, coAwait, result.await_ready, result.await_suspend] at h
      | retVal v => simp [runBody] at h
      | retErr e => simp [runBody] at h
      | throwFault => simp [runBody] at h

/-- Amended C7: the slot is a discriminated union over the two states
{Value, Error}; a freshly allocated slot begins holding a
default-constructed value (it bool-tests true, with zero finalizing
writes), and its contents stay unchanged as long as the owning frame has
not finalized it. -/
theorem c7_two_state_slot {T : Type} [Inhabited T] (body : List (BodyStep T)) (f : Frame T)
    (h : (runBody body f).2 = .incomplete) :
    (promise.mk : Frame T).slot = Expected.value default
    ∧ (promise.mk : Frame T).slotWrites = 0
    ∧ (runBody body f).1.slot = f.slot :=
  ⟨rfl, rfl, runBody_incomplete_slot body f h⟩

/-- Witness for amended C7 at the body that only constructs a resource. -/
theorem c7_two_state_slot_witness :
    (runBody [BodyStep.construct 1] (promise.mk : Frame Nat)).2 = .incomplete
    ∧ ((promise.mk : Frame Nat).slot = Expected.value 0
       ∧ (promise.mk : Frame Nat).slotWrites = 0
       ∧ (runBody [BodyStep.construct 1] (promise.mk : Frame Nat)).1.slot
           = (promise.mk : Frame Nat).slot) :=
  ⟨rfl, c7_two_state_slot [BodyStep.construct 1] promise.mk rfl⟩

/-- C8: the ready-check reports "not ready" for every carrier, whichever
state its slot is in, so `co_await` always proceeds to the
suspend-decision step — its outcome is exactly the dispatch on
`await_suspend`, with no short-circuit. -/
theorem c8_ready_check_always_false {A U : Type} (c : Expected A) (b : Frame U) :
    result.await_ready c = false
    ∧ coAwait c b = (match result.await_suspend c b with
        | (true, b') => AwaitOutcome.suspended b'
        | (false, b') => AwaitOutcome.resumed (result.await_resume c) b') :=
  ⟨rfl, rfl⟩

/-- C9: an exception escaping the body reaches the empty
`unhandled_exception`, which does nothing; the frame is then torn down
with its slot never finalized (zero writes), so the slot still holds the
default-constructed value: the frame's carrier bool-tests true and
dereferences to `default`, with no error indication. -/
theorem c9_fault_swallowed {T : Type} [Inhabited T] (rest : List (BodyStep T)) :
    (∀ f : Frame T, promise.unhandled_exception f = f)
    ∧ runBody (BodyStep.throwFault :: rest) (promise.mk : Frame T)
        = (destroyFrame (promise.mk : Frame T), .faulted)
    ∧ (runBody (BodyStep.throwFault :: rest) (promise.mk : Frame T)).1.slotWrites = 0
    ∧ (runBody (BodyStep.throwFault :: rest) (promise.mk : Frame T)).1.slot
        = Expected.value default
    ∧ result.toBool (runBody (BodyStep.throwFault :: rest) (promise.mk : Frame T)).1.slot
        = true
    ∧ result.deref (runBody (BodyStep.throwFault :: rest) (promise.mk : Frame T)).1.slot
        = some default :=
  ⟨fun _ => rfl, rfl, rfl, rfl, rfl, rfl⟩

/-- C10: under the fixed protocol order, `await_resume` runs only on the
"resume immediately" path, where the awaited slot necessarily holds a
value — the unguarded dereference inside `await_resume` never hits the
error branch. -/
theorem c10_resume_never_sees_error {A U : Type} (c : Expected A) (b : Frame U)
    (v : Option A) (b' : Frame U)
    (h : coAwait c b = .resumed v b') :
    ∃ x, c = Expected.value x ∧ v = some x ∧ result.await_resume c = some x := by
  cases c with
  | value x =>
      refine ⟨x, rfl, ?_, rfl⟩
      have : AwaitOutcome.resumed (A := A) (U := U) (some x) b = .resumed v b' := h
      exact ((AwaitOutcome.resumed.injEq _ _ _ _).mp this).1.symm
  | error e => exact absurd h (by simp [coAwait, result.await_ready, result.await_suspend])

/-- Witness for C10 at a value-holding carrier. -/
theorem c10_resume_never_sees_error_witness :
    coAwait (Expected.value 7 : Expected Nat) (promise.mk : Frame Nat)
      = .resumed (some 7) (promise.mk : Frame Nat)
    ∧ ∃ x, (Expected.value 7 : Expected Nat) = Expected.value x
        ∧ (some 7 : Option Nat) = some x
        ∧ result.await_resume (Expected.value 7 : Expected Nat) = some x :=
  ⟨rfl, c10_resume_never_sees_error (Expected.value 7 : Expected Nat)
    (promise.mk : Frame Nat) (some 7) (promise.mk : Frame Nat) rfl⟩

end PerfectErrorHandling
